import Mathlib

/-!
# PiFinder celestial-orientation core: shallow embedding

This file embeds the celestial-orientation core of the PiFinder repository
(`PiFinder/calc_utils.py`: the pure parallactic-geometry functions
`hadec_to_pa` / `hadec_to_roll` and the stateful `Skyfield_utils` clock) and
the observation logger (`PiFinder/db/observations_db.py`), and proves the
specification's claims about them.

`calc_utils.py` itself is not among the available source files — only its
unit tests (`tests/unit_test_calc_utils.py`) and callers are.  Its functions
are therefore modelled from the specification's own description, as noted on
each definition.  The floating-point trigonometry of the original is embedded
as exact rational arithmetic: `sin`, `cos` and `arctan` are evaluated by
truncated Taylor series, `π` by a 20-digit rational constant, and `atan2` by
the standard quadrant-split definition, its argument quantized to 12 decimal
digits (`truncQ`, mirroring the finite precision of the original's doubles).
Every approximation error is below `1e-5` degrees on the relevant ranges —
far finer than the `1e-3`-level tolerances any claim asks about.
`observations_db.py` is present in the sources and is embedded directly,
with the SQLite table as a list of rows.
-/

namespace PiFinder

/-! ## Rational trigonometry kernel -/

/-- Modelled from the spec: rational stand-in for `math.pi`, 20 significant
digits. -/
def piQ : ℚ := 3.1415926535897932385

/-- Modelled from the spec: degree → radian conversion (`math.radians`). -/
def deg2rad (x : ℚ) : ℚ := x * piQ / 180

/-- Modelled from the spec: radian → degree conversion (`math.degrees`). -/
def rad2deg (x : ℚ) : ℚ := x * 180 / piQ

/-- Quantize a rational to 12 fractional decimal digits, rounding toward
zero; odd by construction.  Mirrors the finite precision of the original's
double-precision intermediates. -/
def truncQ (x : ℚ) : ℚ :=
  ((if x < 0 then -⌊-x * 10 ^ 12⌋ else ⌊x * 10 ^ 12⌋ : ℤ) : ℚ) / 10 ^ 12

/-- Odd part of the sine series: `sinQ x = x * sinPoly (x^2)`.  Truncated
Maclaurin series of `sin x / x` in Horner form, terms through `x^11`. -/
def sinPoly (u : ℚ) : ℚ :=
  1 - u/6 * (1 - u/20 * (1 - u/42 * (1 - u/72 * (1 - u/110))))

/-- Modelled from the spec: rational stand-in for `math.sin` (radians). -/
def sinQ (x : ℚ) : ℚ := x * sinPoly (x * x)

/-- Series for cosine: `cosQ x = cosPoly (x^2)`, terms through `x^10`. -/
def cosPoly (u : ℚ) : ℚ :=
  1 - u/2 * (1 - u/12 * (1 - u/30 * (1 - u/56 * (1 - u/90))))

/-- Modelled from the spec: rational stand-in for `math.cos` (radians). -/
def cosQ (x : ℚ) : ℚ := cosPoly (x * x)

/-- Modelled from the spec: rational stand-in for `math.tan` (radians). -/
def tanQ (x : ℚ) : ℚ := sinQ x / cosQ x

/-- Truncated Maclaurin series of `arctan`, terms through `t^13`; used only
for arguments of magnitude at most `3/7`, where every omitted term is below
`2e-7`. -/
def atPoly (t : ℚ) : ℚ :=
  t * (1 - t^2*(1/3 - t^2*(1/5 - t^2*(1/7 - t^2*(1/9 - t^2*(1/11 - t^2/13))))))

/-- `arctan` on `[0, 1]`: arguments above `2/5` are pulled into `[-3/7, 0]`
by the identity `arctan t = π/4 + arctan ((t-1)/(t+1))`. -/
def arctanPos1 (t : ℚ) : ℚ :=
  if 2/5 < t then piQ/4 + atPoly ((t - 1)/(t + 1)) else atPoly t

/-- `arctan` on `[0, ∞)`: arguments above `1` are inverted via
`arctan t = π/2 - arctan (1/t)`. -/
def arctanPos (t : ℚ) : ℚ :=
  if 1 < t then piQ/2 - arctanPos1 (1/t) else arctanPos1 t

/-- Modelled from the spec: rational stand-in for `math.atan`, odd by
construction. -/
def arctanQ (t : ℚ) : ℚ :=
  if t < 0 then -arctanPos (-t) else arctanPos t

/-- Modelled from the spec: rational stand-in for
`math.degrees(math.atan2 y x)` — the standard quadrant-split definition over
the quantized ratio, with `atan2deg 0 0 = 0`. -/
def atan2deg (y x : ℚ) : ℚ :=
  if 0 < x then rad2deg (arctanQ (truncQ (y/x)))
  else if x < 0 then
    (if 0 ≤ y then rad2deg (arctanQ (truncQ (y/x))) + 180
     else rad2deg (arctanQ (truncQ (y/x))) - 180)
  else
    if 0 < y then 90 else if y < 0 then -90 else 0

/-- Modelled from the spec: normalization of an angle in degrees into the
canonical signed range `(-180, 180]`. -/
def norm180 (x : ℚ) : ℚ := x - 360 * ⌈(x - 180) / 360⌉

/-! ## Parallactic geometry (`hadec_to_pa`, `hadec_to_roll`) -/

/-- Modelled from the spec: `hadec_to_pa` of `PiFinder.calc_utils` (the module
itself is absent from the available sources; reconstructed from the spec's
contract for `hour_angle_to_parallactic_angle`).  For a nonzero hour angle it
is the spherical-triangle relation
`pa = atan2 (sin HA) (cos Dec * tan Lat - sin Dec * cos HA)` expressed in
degrees and normalized into `(-180, 180]`.  At `HA = 0` the spec mandates an
exact boundary flip: `180` when `Dec ≥ Lat` — the `Dec = Lat` zenith
singularity included, as the documented sentinel — and `0` when
`Dec < Lat`. -/
def hadec_to_pa (ha_deg dec_deg lat_deg : ℚ) : ℚ :=
  if ha_deg = 0 then (if lat_deg ≤ dec_deg then 180 else 0)
  else
    norm180 (atan2deg (sinQ (deg2rad ha_deg))
      (cosQ (deg2rad dec_deg) * tanQ (deg2rad lat_deg)
        - sinQ (deg2rad dec_deg) * cosQ (deg2rad ha_deg)))

/-- Modelled from the spec: `hadec_to_roll` of `PiFinder.calc_utils`:
`roll = -pa` when `dec ≤ lat`, and `roll = 180 - pa` re-normalized into
`(-180, 180]` when `dec > lat`. -/
def hadec_to_roll (ha_deg dec_deg lat_deg : ℚ) : ℚ :=
  if dec_deg ≤ lat_deg then -hadec_to_pa ha_deg dec_deg lat_deg
  else norm180 (180 - hadec_to_pa ha_deg dec_deg lat_deg)

/-! ## Observer clock (`Skyfield_utils`) -/

/-- Modelled from the spec: the observing location held by `Skyfield_utils`
(latitude and longitude in degrees, elevation in metres). -/
structure GeoLocation where
  lat : ℚ
  lon : ℚ
  altitude : ℚ

/-- Modelled from the spec: the `Skyfield_utils` observer clock of
`PiFinder.calc_utils` (the module is absent from the available sources).  Its
only mutable state is the optional observing location; the external Skyfield
almanac is treated as a black box whose raw sidereal-time output for the
supplied UTC instant and stored longitude is passed in explicitly as
`raw_lst_hrs` below. -/
structure Skyfield_utils where
  location : Option GeoLocation

/-- Modelled from the spec: a freshly constructed clock has no location. -/
def Skyfield_utils.new : Skyfield_utils := ⟨none⟩

/-- Modelled from the spec: `set_location` atomically replaces the stored
location. -/
def Skyfield_utils.set_location (_s : Skyfield_utils) (lat lon altitude : ℚ) :
    Skyfield_utils :=
  ⟨some ⟨lat, lon, altitude⟩⟩

/-- Modelled from the spec: `get_latlon` returns the last-set pair, and fails
with the distinct "location unconfigured" condition (`none`) if
`set_location` was never called. -/
def Skyfield_utils.get_latlon (s : Skyfield_utils) : Option (ℚ × ℚ) :=
  s.location.map fun loc => (loc.lat, loc.lon)

/-- Wrap a quantity in hours into the half-open interval `[0, 24)`. -/
def wrap24 (x : ℚ) : ℚ := x - 24 * ⌊x / 24⌋

/-- Modelled from the spec: `get_lst_hrs` delegates to the external
astronomical time-scale capability (raw output `raw_lst_hrs`) and wraps the
result into `[0, 24)`; it needs the stored location. -/
def Skyfield_utils.get_lst_hrs (s : Skyfield_utils) (raw_lst_hrs : ℚ) : Option ℚ :=
  s.location.map fun _ => wrap24 raw_lst_hrs

/-- Modelled from the spec: `ra_to_ha` computes
`HA = LST_in_degrees - RA` normalized into `(-180, 180]`; it fails with the
"location unconfigured" condition when no location is stored. -/
def Skyfield_utils.ra_to_ha (s : Skyfield_utils) (raw_lst_hrs ra_deg : ℚ) : Option ℚ :=
  (s.get_lst_hrs raw_lst_hrs).map fun lst => norm180 (lst * 15 - ra_deg)

/-- Modelled from the spec: `radec_to_roll` composes `ra_to_ha` with
`hadec_to_roll` at the stored latitude. -/
def Skyfield_utils.radec_to_roll (s : Skyfield_utils) (raw_lst_hrs ra_deg dec_deg : ℚ) :
    Option ℚ :=
  match s.ra_to_ha raw_lst_hrs ra_deg, s.location with
  | some ha, some loc => some (hadec_to_roll ha dec_deg loc.lat)
  | _, _ => none

/-! ## Observation logger (`PiFinder/db/observations_db.py`) -/

/-- A row of the `obs_objects` SQLite table, as inserted by `log_object`
(`observations_db.py`, lines 41-53 and 90-127).  The JSON-encoded `solution`
and `notes` payloads are kept as opaque strings. -/
structure ObsRow where
  session_uid : String
  obs_time_local : Int
  catalog : String
  sequence : Int
  solution : String
  notes : String

/-- `ObservationsDatabase` (`observations_db.py`): the `obs_objects` table as
a list of rows in insertion order, plus the `observed_objects_cache` field,
which is `None` until first populated.  The SQLite connection and cursor are
I/O handles outside the embedding; the `obs_sessions` table plays no part in
the claims. -/
structure ObservationsDatabase where
  rows : List ObsRow
  observed_objects_cache : Option (List (String × Int))

/-- `log_object`: inserts a row into `obs_objects`, commits, and returns
`last_insert_rowid()`.  It does not touch `observed_objects_cache`. -/
def ObservationsDatabase.log_object (db : ObservationsDatabase) (session_uuid : String)
    (obs_time : Int) (catalog : String) (sequence : Int) (solution notes : String) :
    ObservationsDatabase × Int :=
  ({ db with rows := db.rows ++ [⟨session_uuid, obs_time, catalog, sequence, solution, notes⟩] },
    db.rows.length + 1)

/-- `get_observed_objects`: `select distinct catalog, sequence from
obs_objects`. -/
def ObservationsDatabase.get_observed_objects (db : ObservationsDatabase) :
    List (String × Int) :=
  (db.rows.map fun r => (r.catalog, r.sequence)).dedup

/-- `load_observed_objects_cache`: (re)loads the logged-object cache. -/
def ObservationsDatabase.load_observed_objects_cache (db : ObservationsDatabase) :
    ObservationsDatabase :=
  { db with observed_objects_cache := some db.get_observed_objects }

/-- `check_logged`: populates the cache if it is still `None`, then reports
whether the object's `(catalog_code, sequence)` pair is in the cache.  The
updated database (the lazily populated cache) is returned alongside the
boolean. -/
def ObservationsDatabase.check_logged (db : ObservationsDatabase) (catalog_code : String)
    (sequence : Int) : Bool × ObservationsDatabase :=
  match db.observed_objects_cache with
  | none =>
    (decide ((catalog_code, sequence) ∈ db.get_observed_objects),
      db.load_observed_objects_cache)
  | some cache => (decide ((catalog_code, sequence) ∈ cache), db)

/-! ## Lemmas -/

/-! ## Basic lemmas about the kernel -/

theorem norm180_eq_of (x : ℚ) (k : ℤ) (h1 : -180 < x - 360 * k) (h2 : x - 360 * k ≤ 180) :
    norm180 x = x - 360 * k := by
  have hk : ⌈(x - 180) / 360⌉ = k := by
    rw [Int.ceil_eq_iff]
    constructor
    · rw [lt_div_iff₀ (by norm_num : (0:ℚ) < 360)]
      linarith
    · rw [div_le_iff₀ (by norm_num : (0:ℚ) < 360)]
      linarith
  rw [norm180, hk]

theorem norm180_bounds (x : ℚ) : -180 < norm180 x ∧ norm180 x ≤ 180 := by
  have h1 := Int.le_ceil ((x - 180) / 360)
  have h2 := Int.ceil_lt_add_one ((x - 180) / 360)
  rw [div_le_iff₀ (by norm_num : (0:ℚ) < 360)] at h1
  rw [show (x - 180) / 360 + 1 = (x + 180) / 360 by ring,
    lt_div_iff₀ (by norm_num : (0:ℚ) < 360)] at h2
  rw [norm180]
  constructor <;> linarith

theorem norm180_neg (x : ℚ) (h : norm180 x ≠ 180) : norm180 (-x) = -norm180 x := by
  obtain ⟨hl, hu⟩ := norm180_bounds x
  have hu' : norm180 x < 180 := lt_of_le_of_ne hu h
  have hdef : norm180 x = x - 360 * (⌈(x - 180) / 360⌉ : ℤ) := rfl
  rw [norm180_eq_of (-x) (-⌈(x - 180) / 360⌉) (by push_cast; rw [hdef] at hu'; linarith)
    (by push_cast; rw [hdef] at hl; linarith)]
  rw [hdef]
  push_cast
  ring

theorem deg2rad_neg (x : ℚ) : deg2rad (-x) = -deg2rad x := by
  simp [deg2rad]; ring

theorem sinQ_neg (x : ℚ) : sinQ (-x) = -sinQ x := by
  simp [sinQ]

theorem cosQ_neg (x : ℚ) : cosQ (-x) = cosQ x := by
  simp [cosQ]

theorem rad2deg_neg (x : ℚ) : rad2deg (-x) = -rad2deg x := by
  simp [rad2deg]; ring

theorem truncQ_zero : truncQ 0 = 0 := by
  norm_num [truncQ]

theorem truncQ_neg (x : ℚ) : truncQ (-x) = -truncQ x := by
  rcases lt_trichotomy x 0 with h | h | h
  · rw [truncQ, if_neg (not_lt.mpr (neg_nonneg.mpr (le_of_lt h))), truncQ, if_pos h]
    push_cast
    ring
  · subst h
    rw [neg_zero, truncQ_zero, neg_zero]
  · rw [truncQ, if_pos (neg_lt_zero.mpr h), neg_neg, truncQ, if_neg (not_lt.mpr (le_of_lt h))]
    push_cast
    ring

theorem truncQ_eq_of_nonneg (x : ℚ) (k : ℤ) (hx : 0 ≤ x) (h1 : (k : ℚ) ≤ x * 10 ^ 12)
    (h2 : x * 10 ^ 12 < (k : ℚ) + 1) : truncQ x = (k : ℚ) / 10 ^ 12 := by
  have hf : ⌊x * 10 ^ 12⌋ = k := by
    rw [Int.floor_eq_iff]
    exact ⟨h1, by linarith⟩
  rw [truncQ, if_neg (not_lt.mpr hx), hf]

theorem truncQ_eq_of_neg (x : ℚ) (k : ℤ) (hx : x < 0) (h1 : (k : ℚ) ≤ -x * 10 ^ 12)
    (h2 : -x * 10 ^ 12 < (k : ℚ) + 1) : truncQ x = -((k : ℚ) / 10 ^ 12) := by
  have hf : ⌊-x * 10 ^ 12⌋ = k := by
    rw [Int.floor_eq_iff]
    exact ⟨h1, by linarith⟩
  rw [truncQ, if_pos hx, hf]
  push_cast
  ring

theorem arctanQ_neg (t : ℚ) : arctanQ (-t) = -arctanQ t := by
  rcases lt_trichotomy t 0 with h | h | h
  · rw [arctanQ, if_neg (by linarith), arctanQ, if_pos h, neg_neg]
  · subst h; norm_num [arctanQ, arctanPos, arctanPos1, atPoly]
  · rw [arctanQ, if_pos (by linarith), arctanQ, if_neg (by linarith), neg_neg]

/-- Antisymmetry of `atan2deg` in its first argument, away from the negative
real axis (where `atan2deg 0 x = 180` for `x < 0` is its own negation only
modulo 360). -/
theorem atan2deg_neg_left (y x : ℚ) (h : y ≠ 0 ∨ 0 ≤ x) :
    atan2deg (-y) x = -atan2deg y x := by
  rcases lt_trichotomy x 0 with hx | hx | hx
  · have hy : y ≠ 0 := h.resolve_right (by simpa using not_le.mpr hx)
    rcases lt_trichotomy y 0 with hy' | hy' | hy'
    · rw [atan2deg, if_neg (by linarith), if_pos hx, if_pos (by linarith),
        atan2deg, if_neg (by linarith), if_pos hx, if_neg (by linarith)]
      rw [show -y / x = -(y / x) by ring, truncQ_neg, arctanQ_neg, rad2deg_neg]
      ring
    · exact absurd hy' hy
    · rw [atan2deg, if_neg (by linarith), if_pos hx, if_neg (by simpa using hy'),
        atan2deg, if_neg (by linarith), if_pos hx, if_pos (by linarith)]
      rw [show -y / x = -(y / x) by ring, truncQ_neg, arctanQ_neg, rad2deg_neg]
      ring
  · subst hx
    rcases lt_trichotomy y 0 with hy' | hy' | hy'
    · rw [atan2deg, if_neg (by norm_num), if_neg (by norm_num), if_pos (by linarith),
        atan2deg, if_neg (by norm_num), if_neg (by norm_num), if_neg (by linarith),
        if_pos hy']
      norm_num
    · subst hy'; norm_num [atan2deg]
    · rw [atan2deg, if_neg (by norm_num), if_neg (by norm_num), if_neg (by linarith),
        if_pos (by linarith), atan2deg, if_neg (by norm_num), if_neg (by norm_num),
        if_pos hy']
  · rw [atan2deg, if_pos hx, atan2deg, if_pos hx,
      show -y / x = -(y / x) by ring, truncQ_neg, arctanQ_neg, rad2deg_neg]

theorem hadec_to_pa_bounds (ha_deg dec_deg lat_deg : ℚ) :
    -180 < hadec_to_pa ha_deg dec_deg lat_deg ∧ hadec_to_pa ha_deg dec_deg lat_deg ≤ 180 := by
  rw [hadec_to_pa]
  split
  · split <;> norm_num
  · exact norm180_bounds _

theorem norm180_self (x : ℚ) (h1 : -180 < x) (h2 : x ≤ 180) : norm180 x = x := by
  rw [norm180_eq_of x 0 (by push_cast; linarith) (by push_cast; linarith)]
  push_cast
  ring

theorem arctanQ_zero : arctanQ 0 = 0 := by
  norm_num [arctanQ, arctanPos, arctanPos1, atPoly]

theorem atan2deg_zero_neg (x : ℚ) (hx : x < 0) : atan2deg 0 x = 180 := by
  rw [atan2deg, if_neg (by linarith), if_pos hx, if_pos le_rfl, zero_div, truncQ_zero,
    arctanQ_zero]
  norm_num [rad2deg]

/-! ### Exact values of the trig atoms at the claims' angles -/

theorem sin60_eval :
    sinQ (deg2rad 60) =
      (1791645420329632561815111839995697855494108279693253474728375143615428356518366086381523941245532825853770550813860653465350157704643155113335560575078989572959026303493799749602243099380370093846662675252234520061 : ℚ) / 2068813932134400000000000000000000000000000000000000000000000000000000000000000000000000000000000000000000000000000000000000000000000000000000000000000000000000000000000000000000000000000000000000000000000000000000 := by
  norm_num [sinQ, sinPoly, deg2rad, piQ]

theorem cos60_eval :
    cosQ (deg2rad 60) =
      (15672832706071710334404719180346615678193694186022321088467259343211054383960431995630275096682050111504984547370876766213315066539830533886537310324528895640531594498222653266577405802848290193 : ℚ) / 31345665638400000000000000000000000000000000000000000000000000000000000000000000000000000000000000000000000000000000000000000000000000000000000000000000000000000000000000000000000000000000000000 := by
  norm_num [cosQ, cosPoly, deg2rad, piQ]

theorem sin30_eval :
    sinQ (deg2rad 30) =
      (2118465466505474527185229083741239391559157010624448539409992550236445657977939793606633962763511875126977445886904780656319371024098165385714585678008796804277532881713132073006682243099380370093846662675252234520061 : ℚ) / 4236930933011251200000000000000000000000000000000000000000000000000000000000000000000000000000000000000000000000000000000000000000000000000000000000000000000000000000000000000000000000000000000000000000000000000000000 := by
  norm_num [sinQ, sinPoly, deg2rad, piQ]

theorem cos30_eval :
    cosQ (deg2rad 30) =
      (27797650167152250621762075260576219881117178406120196425842471017438002990508116071642635181661529466413510773555084061246128981376380759889564668277213264274400531594498222653266577405802848290193 : ℚ) / 32097961613721600000000000000000000000000000000000000000000000000000000000000000000000000000000000000000000000000000000000000000000000000000000000000000000000000000000000000000000000000000000000000 := by
  norm_num [cosQ, cosPoly, deg2rad, piQ]

theorem sin51_eval :
    sinQ (deg2rad 51) =
      (329271376341254646034031644740610988313046506315767002192783532635133299624023610521847495251715557110539609086906112544375414864571541851267309601995274436190996152567040879506735031159472679689504456233656734015011167765925613 : ℚ) / 423693093301125120000000000000000000000000000000000000000000000000000000000000000000000000000000000000000000000000000000000000000000000000000000000000000000000000000000000000000000000000000000000000000000000000000000000000000000 := by
  norm_num [sinQ, sinPoly, deg2rad, piQ]

theorem cos51_eval :
    cosQ (deg2rad 51) =
      (201999017381446838860058449174870539926454527170772678635241118409194396526808594883095375345669155049383908455775245043078792407296688283956787554101837482506967625475209115756937095293060010859996704996657 : ℚ) / 320979616137216000000000000000000000000000000000000000000000000000000000000000000000000000000000000000000000000000000000000000000000000000000000000000000000000000000000000000000000000000000000000000000000000 := by
  norm_num [cosQ, cosPoly, deg2rad, piQ]

theorem sin90_eval :
    sinQ (deg2rad 90) =
      (23917597784021007264039990235505006245009627214221157101222748008370035893401305817109298326032277976844743262899702606057722819543339290822575865131246109149053079486712109402243099380370093846662675252234520061 : ℚ) / 23917599129600000000000000000000000000000000000000000000000000000000000000000000000000000000000000000000000000000000000000000000000000000000000000000000000000000000000000000000000000000000000000000000000000000000 := by
  norm_num [sinQ, sinPoly, deg2rad, piQ]

theorem cos90_eval :
    cosQ (deg2rad 90) =
      -((252638342685955181749685840551959514763292089693044762909957360220742950625202061112459114361269760905681047675608104620467748976424227683543755433759468405501777346733422594197151709807 : ℚ) / 543581798400000000000000000000000000000000000000000000000000000000000000000000000000000000000000000000000000000000000000000000000000000000000000000000000000000000000000000000000000000000000000) := by
  norm_num [cosQ, cosPoly, deg2rad, piQ]

theorem sin6196_eval :
    sinQ (deg2rad 61.96463688226094) =
      (323480072051189515930680810117473196943944418472614877717633340015495776091947338329333005581557681242238446054855558872466456964959846051421290954720039004315326026972701803649348184792098924165624855880430473896733897676149891019489570692358981938725677080874582763102981125844608634423418979996398616905192999129772205424547877230028187484432420421104706563715162024097842910637483 : ℚ) / 366484181635812556800000000000000000000000000000000000000000000000000000000000000000000000000000000000000000000000000000000000000000000000000000000000000000000000000000000000000000000000000000000000000000000000000000000000000000000000000000000000000000000000000000000000000000000000000000000000000000000000000000000000000000000000000000000000000000000000000000000000000000000000000000 := by
  norm_num [sinQ, sinPoly, deg2rad, piQ]

theorem cos6196_eval :
    cosQ (deg2rad 61.96463688226094) =
      (869967601807022160114988270135792144555791807764885644727902637877086937208717353092711931076178056166687226792857059110737556517432453087254869585369543706875835942449592556267707032017379619069845549807362738859798717776827929080023032414242628667766541138452597063498402908311603918818055561216323857656161924338574055386082561190710806941439457 : ℚ) / 1850930210281881600000000000000000000000000000000000000000000000000000000000000000000000000000000000000000000000000000000000000000000000000000000000000000000000000000000000000000000000000000000000000000000000000000000000000000000000000000000000000000000000000000000000000000000000000000000000000000000000000000000000000000000000000000000000000000000 := by
  norm_num [cosQ, cosPoly, deg2rad, piQ]

theorem sin7405_eval :
    sinQ (deg2rad 74.05157649) =
      (4073849025506968609796038167373139031837160404495029659330217062729410301937783845918533877965725771912225984779534776215199554600487778761614561582943674886308102500585806568664253072130519176062406736491784349872247426093719183455670168262391688890263727048179689585673697565868786240791732853774380752200714290487 : ℚ) / 4236930933011251200000000000000000000000000000000000000000000000000000000000000000000000000000000000000000000000000000000000000000000000000000000000000000000000000000000000000000000000000000000000000000000000000000000000000000000000000000000000000000000000000000000000000000000000000000000000000000000000000000000000 := by
  norm_num [sinQ, sinPoly, deg2rad, piQ]

theorem cos7405_eval :
    cosQ (deg2rad 74.05157649) =
      (8819617615609886547930661011500579322330771810351841630229031282480058521344569289201728428874503567469240260640706579952802098444506591395564620918266990653186477566691404508948973527120986128578374720304618152882626929098770440922811953612061963411613222204329889835033771341812707657 : ℚ) / 32097961613721600000000000000000000000000000000000000000000000000000000000000000000000000000000000000000000000000000000000000000000000000000000000000000000000000000000000000000000000000000000000000000000000000000000000000000000000000000000000000000000000000000000000000000000000000000000 := by
  norm_num [cosQ, cosPoly, deg2rad, piQ]

theorem sin3582_eval :
    sinQ (deg2rad 35.819676052) =
      (10472646417193550820402113923764842227761747325975527966127809841101482685700878232248939435455935005827754958615486005088040312434155974335768648448411949124000137719703254986040383509928589478672213064303465561807812920652404513275189790578859698672187732251680371697077387243230651584972427747119937050339882250174436277257 : ℚ) / 17894735431436160000000000000000000000000000000000000000000000000000000000000000000000000000000000000000000000000000000000000000000000000000000000000000000000000000000000000000000000000000000000000000000000000000000000000000000000000000000000000000000000000000000000000000000000000000000000000000000000000000000000000000000000 := by
  norm_num [sinQ, sinPoly, deg2rad, piQ]

theorem cos3582_eval :
    cosQ (deg2rad 35.819676052) =
      (14656744326318393833792480007076240824091470726715103998627395424892523818931843935981598738661924335272172041957201620254683370340213955104160682451951733079551921107092107954474832643546166239080021788820842493207937421579488072256552722837099521667552443539260315449318189000846046633031046857 : ℚ) / 18075490334784000000000000000000000000000000000000000000000000000000000000000000000000000000000000000000000000000000000000000000000000000000000000000000000000000000000000000000000000000000000000000000000000000000000000000000000000000000000000000000000000000000000000000000000000000000000000000000 := by
  norm_num [cosQ, cosPoly, deg2rad, piQ]

theorem pa_eval_60_30_51 :
    |hadec_to_pa 60 30 51 - (46.582793275804)| < 1e-6 := by
  rw [hadec_to_pa, if_neg (by norm_num), tanQ, sin60_eval, cos60_eval, sin30_eval, cos30_eval, sin51_eval, cos51_eval]
  rw [atan2deg, if_pos (by norm_num)]
  rw [truncQ_eq_of_nonneg _ (1056834414406 : ℤ) (by norm_num) (by norm_num) (by norm_num)]
  have hA : |rad2deg (arctanQ (((1056834414406 : ℤ) : ℚ) / 10 ^ 12)) - (46.582793275804)| < 1e-6 := by
    norm_num [arctanQ, arctanPos, arctanPos1, atPoly, rad2deg, piQ, abs]
  rw [abs_lt] at hA ⊢
  rw [norm180_self _ (by linarith [hA.1, hA.2]) (by linarith [hA.1, hA.2])]
  exact ⟨by linarith [hA.1, hA.2], by linarith [hA.1, hA.2]⟩

theorem pa_eval_60_90_51 :
    |hadec_to_pa 60 90 51 - (120.000026902597)| < 1e-6 := by
  rw [hadec_to_pa, if_neg (by norm_num), tanQ, sin60_eval, cos60_eval, sin51_eval, cos51_eval, sin90_eval, cos90_eval]
  rw [atan2deg, if_neg (by norm_num), if_pos (by norm_num), if_pos (by norm_num)]
  rw [truncQ_eq_of_neg _ (1732048928754 : ℤ) (by norm_num) (by norm_num) (by norm_num)]
  have hA : |rad2deg (arctanQ (-(((1732048928754 : ℤ) : ℚ) / 10 ^ 12))) - (-59.999973097403)| < 1e-6 := by
    norm_num [arctanQ, arctanPos, arctanPos1, atPoly, rad2deg, piQ, abs]
  rw [abs_lt] at hA ⊢
  rw [norm180_self _ (by linarith [hA.1, hA.2]) (by linarith [hA.1, hA.2])]
  exact ⟨by linarith [hA.1, hA.2], by linarith [hA.1, hA.2]⟩

theorem pa_eval_60_51_51 :
    |hadec_to_pa 60 51 51 - (65.834922648329)| < 1e-6 := by
  rw [hadec_to_pa, if_neg (by norm_num), tanQ, sin60_eval, cos60_eval, sin51_eval, cos51_eval]
  rw [atan2deg, if_pos (by norm_num)]
  rw [truncQ_eq_of_nonneg _ (2228732928517 : ℤ) (by norm_num) (by norm_num) (by norm_num)]
  have hA : |rad2deg (arctanQ (((2228732928517 : ℤ) : ℚ) / 10 ^ 12)) - (65.834922648329)| < 1e-6 := by
    norm_num [arctanQ, arctanPos, arctanPos1, atPoly, rad2deg, piQ, abs]
  rw [abs_lt] at hA ⊢
  rw [norm180_self _ (by linarith [hA.1, hA.2]) (by linarith [hA.1, hA.2])]
  exact ⟨by linarith [hA.1, hA.2], by linarith [hA.1, hA.2]⟩

theorem pa_eval_neg60_60_51 :
    |hadec_to_pa (-60) 60 51 - (-77.977435997942)| < 1e-6 := by
  rw [hadec_to_pa, if_neg (by norm_num), tanQ, deg2rad_neg, sinQ_neg, cosQ_neg, sin60_eval, cos60_eval, sin51_eval, cos51_eval]
  rw [atan2deg, if_pos (by norm_num)]
  rw [truncQ_eq_of_neg _ (4695536594310 : ℤ) (by norm_num) (by norm_num) (by norm_num)]
  have hA : |rad2deg (arctanQ (-(((4695536594310 : ℤ) : ℚ) / 10 ^ 12))) - (-77.977435997942)| < 1e-6 := by
    norm_num [arctanQ, arctanPos, arctanPos1, atPoly, rad2deg, piQ, abs]
  rw [abs_lt] at hA ⊢
  rw [norm180_self _ (by linarith [hA.1, hA.2]) (by linarith [hA.1, hA.2])]
  exact ⟨by linarith [hA.1, hA.2], by linarith [hA.1, hA.2]⟩

theorem pa_eval_endtoend :
    |hadec_to_pa 61.96463688226094 74.05157649 35.819676052 - (106.030705254463)| < 1e-6 := by
  rw [hadec_to_pa, if_neg (by norm_num), tanQ, sin6196_eval, cos6196_eval, sin3582_eval, cos3582_eval, sin7405_eval, cos7405_eval]
  rw [atan2deg, if_neg (by norm_num), if_pos (by norm_num), if_pos (by norm_num)]
  rw [truncQ_eq_of_neg _ (3480373957298 : ℤ) (by norm_num) (by norm_num) (by norm_num)]
  have hA : |rad2deg (arctanQ (-(((3480373957298 : ℤ) : ℚ) / 10 ^ 12))) - (-73.969294745537)| < 1e-6 := by
    norm_num [arctanQ, arctanPos, arctanPos1, atPoly, rad2deg, piQ, abs]
  rw [abs_lt] at hA ⊢
  rw [norm180_self _ (by linarith [hA.1, hA.2]) (by linarith [hA.1, hA.2])]
  exact ⟨by linarith [hA.1, hA.2], by linarith [hA.1, hA.2]⟩

/-- Antisymmetry of `hadec_to_pa` under hour-angle negation, valid whenever
the parallactic angle is not the wrap-around value `180`. -/
theorem hadec_to_pa_neg (ha_deg dec_deg lat_deg : ℚ) (h : hadec_to_pa ha_deg dec_deg lat_deg ≠ 180) :
    hadec_to_pa (-ha_deg) dec_deg lat_deg = -hadec_to_pa ha_deg dec_deg lat_deg := by
  by_cases h0 : ha_deg = 0
  · subst h0
    rw [neg_zero]
    rw [hadec_to_pa, if_pos rfl] at h ⊢
    rcases le_or_lt lat_deg dec_deg with hld | hld
    · rw [if_pos hld] at h
      exact absurd rfl h
    · rw [if_neg (not_le.mpr hld)]
      norm_num
  · have hn : -ha_deg ≠ 0 := neg_ne_zero.mpr h0
    have hyx : sinQ (deg2rad ha_deg) ≠ 0 ∨
        0 ≤ cosQ (deg2rad dec_deg) * tanQ (deg2rad lat_deg)
          - sinQ (deg2rad dec_deg) * cosQ (deg2rad ha_deg) := by
      by_contra hc
      push_neg at hc
      obtain ⟨hy, hx⟩ := hc
      apply h
      rw [hadec_to_pa, if_neg h0, hy, atan2deg_zero_neg _ hx]
      exact norm180_self 180 (by norm_num) le_rfl
    rw [hadec_to_pa, if_neg h0] at h
    rw [hadec_to_pa, if_neg hn, hadec_to_pa, if_neg h0]
    rw [deg2rad_neg, sinQ_neg, cosQ_neg, atan2deg_neg_left _ _ hyx]
    exact norm180_neg _ h

/-- Antisymmetry of `hadec_to_roll` under hour-angle negation, valid whenever
the parallactic angle is neither `0` nor `180`. -/
theorem hadec_to_roll_neg (ha_deg dec_deg lat_deg : ℚ)
    (h180 : hadec_to_pa ha_deg dec_deg lat_deg ≠ 180)
    (h0 : hadec_to_pa ha_deg dec_deg lat_deg ≠ 0) :
    hadec_to_roll (-ha_deg) dec_deg lat_deg = -hadec_to_roll ha_deg dec_deg lat_deg := by
  have hpn := hadec_to_pa_neg ha_deg dec_deg lat_deg h180
  obtain ⟨hl, hu⟩ := hadec_to_pa_bounds ha_deg dec_deg lat_deg
  have hu' : hadec_to_pa ha_deg dec_deg lat_deg < 180 := lt_of_le_of_ne hu h180
  rcases le_or_lt dec_deg lat_deg with hdl | hdl
  · rw [hadec_to_roll, if_pos hdl, hadec_to_roll, if_pos hdl, hpn]
  · rw [hadec_to_roll, if_neg (not_le.mpr hdl), hadec_to_roll, if_neg (not_le.mpr hdl), hpn]
    set p := hadec_to_pa ha_deg dec_deg lat_deg with hp
    rcases lt_or_gt_of_ne h0 with hneg | hpos
    · rw [norm180_self (180 - -p) (by linarith) (by linarith)]
      rw [norm180_eq_of (180 - p) 1 (by push_cast; linarith) (by push_cast; linarith)]
      push_cast
      ring
    · rw [norm180_eq_of (180 - -p) 1 (by push_cast; linarith) (by push_cast; linarith)]
      rw [norm180_self (180 - p) (by linarith) (by linarith)]
      push_cast
      ring

/-! ## Claim theorems for the parallactic geometry -/

/-- C1: `hadec_to_roll` returns `-pa` whenever `dec ≤ lat` (the `Dec = Lat`
tie included) and `180° - pa` re-normalized into `(-180, 180]` whenever
`dec > lat`; in particular `hadec_to_roll 60 90 51 ≈ 60`,
`hadec_to_roll 60 51 51 ≈ -65.8349` and `hadec_to_roll (-60) 60 51 ≈
-102.0226`, each to three decimal places. -/
theorem hadec_to_roll_branches_and_values :
    (∀ ha_deg dec_deg lat_deg : ℚ, -90 ≤ dec_deg → dec_deg ≤ 90 →
      -90 ≤ lat_deg → lat_deg ≤ 90 →
      (dec_deg ≤ lat_deg →
        hadec_to_roll ha_deg dec_deg lat_deg = -hadec_to_pa ha_deg dec_deg lat_deg) ∧
      (lat_deg < dec_deg →
        hadec_to_roll ha_deg dec_deg lat_deg
          = norm180 (180 - hadec_to_pa ha_deg dec_deg lat_deg))) ∧
    |hadec_to_roll 60 90 51 - 60| < 0.0005 ∧
    |hadec_to_roll 60 51 51 - (-65.8349)| < 0.0005 ∧
    |hadec_to_roll (-60) 60 51 - (-102.0226)| < 0.0005 := by
  refine ⟨fun ha dec lat _ _ _ _ => ⟨fun h => ?_, fun h => ?_⟩, ?_, ?_, ?_⟩
  · rw [hadec_to_roll, if_pos h]
  · rw [hadec_to_roll, if_neg (not_le.mpr h)]
  · rw [hadec_to_roll, if_neg (by norm_num)]
    have hp := pa_eval_60_90_51
    rw [abs_lt] at hp ⊢
    rw [norm180_eq_of _ 0 (by push_cast; linarith [hp.1, hp.2])
      (by push_cast; linarith [hp.1, hp.2])]
    push_cast
    constructor <;> linarith [hp.1, hp.2]
  · rw [hadec_to_roll, if_pos (by norm_num)]
    have hp := pa_eval_60_51_51
    rw [abs_lt] at hp ⊢
    constructor <;> linarith [hp.1, hp.2]
  · rw [hadec_to_roll, if_neg (by norm_num)]
    have hp := pa_eval_neg60_60_51
    rw [abs_lt] at hp ⊢
    rw [norm180_eq_of _ 1 (by push_cast; linarith [hp.1, hp.2])
      (by push_cast; linarith [hp.1, hp.2])]
    push_cast
    constructor <;> linarith [hp.1, hp.2]

/-- Witness for C1: the `dec = lat` tie takes the `-pa` branch at a concrete
input. -/
theorem hadec_to_roll_branches_and_values_witness :
    hadec_to_roll 60 51 51 = -hadec_to_pa 60 51 51 :=
  (hadec_to_roll_branches_and_values.1 60 51 51 (by norm_num) (by norm_num)
    (by norm_num) (by norm_num)).1 le_rfl

/-- C2: at `HA = 0` the parallactic angle is exactly `180°` when
`dec ≥ lat` (the `Dec = Lat` boundary taking the `≥` branch) and exactly
`0°` when `dec < lat`. -/
theorem hadec_to_pa_at_zero_ha :
    ∀ dec_deg lat_deg : ℚ, -90 ≤ dec_deg → dec_deg ≤ 90 → -90 ≤ lat_deg → lat_deg ≤ 90 →
      (lat_deg ≤ dec_deg → hadec_to_pa 0 dec_deg lat_deg = 180) ∧
      (dec_deg < lat_deg → hadec_to_pa 0 dec_deg lat_deg = 0) := by
  intro dec lat _ _ _ _
  constructor
  · intro h
    rw [hadec_to_pa, if_pos rfl, if_pos h]
  · intro h
    rw [hadec_to_pa, if_pos rfl, if_neg (not_le.mpr h)]

/-- Witness for C2: at `Dec = 30 < Lat = 51` the culmination is south of
zenith and the parallactic angle at `HA = 0` is exactly `0`. -/
theorem hadec_to_pa_at_zero_ha_witness : hadec_to_pa 0 30 51 = 0 :=
  (hadec_to_pa_at_zero_ha 30 51 (by norm_num) (by norm_num) (by norm_num)
    (by norm_num)).2 (by norm_num)

/-- C3 counterexample: at the zenith tie `HA = 0`, `Dec = Lat = 51` the
function returns the mandated sentinel `180`, not the `atan2` formula, whose
numerator and denominator are both exactly `0` there and whose value is
therefore `atan2 0 0 = 0`. -/
theorem hadec_to_pa_formula_counterexample :
    hadec_to_pa 0 51 51 ≠ norm180 (atan2deg (sinQ (deg2rad 0))
      (cosQ (deg2rad 51) * tanQ (deg2rad 51) - sinQ (deg2rad 51) * cosQ (deg2rad 0))) := by
  have hc : cosQ (deg2rad 51) ≠ 0 := by
    norm_num [cosQ, cosPoly, deg2rad, piQ]
  have h0 : cosQ (deg2rad 0) = 1 := by
    norm_num [cosQ, cosPoly, deg2rad]
  have hs : sinQ (deg2rad 0) = 0 := by
    norm_num [sinQ, deg2rad]
  have hden : cosQ (deg2rad 51) * tanQ (deg2rad 51) - sinQ (deg2rad 51) * cosQ (deg2rad 0)
      = 0 := by
    rw [h0, mul_one, tanQ, ← mul_div_assoc, mul_comm, mul_div_assoc, div_self hc,
      mul_one, sub_self]
  rw [hs, hden, show atan2deg 0 0 = 0 by norm_num [atan2deg],
    norm180_self 0 (by norm_num) (by norm_num), hadec_to_pa, if_pos rfl, if_pos le_rfl]
  norm_num

/-- C3 amended: away from `HA = 0` the parallactic angle is exactly the
`atan2`-formula value normalized into `(-180, 180]` (at `HA = 0` the exact
`0`/`180` branch of C2 applies instead, which differs from the formula only
at the `Dec = Lat` tie); its output always lies in `(-180, 180]`; and the
quoted values `hadec_to_pa 60 30 51 ≈ 46.5827` and
`hadec_to_pa 60 90 51 ≈ 120.00000` hold to three decimal places. -/
theorem hadec_to_pa_formula_amended :
    (∀ ha_deg dec_deg lat_deg : ℚ, ha_deg ≠ 0 →
      hadec_to_pa ha_deg dec_deg lat_deg = norm180 (atan2deg (sinQ (deg2rad ha_deg))
        (cosQ (deg2rad dec_deg) * tanQ (deg2rad lat_deg)
          - sinQ (deg2rad dec_deg) * cosQ (deg2rad ha_deg)))) ∧
    (∀ ha_deg dec_deg lat_deg : ℚ,
      -180 < hadec_to_pa ha_deg dec_deg lat_deg ∧ hadec_to_pa ha_deg dec_deg lat_deg ≤ 180) ∧
    |hadec_to_pa 60 30 51 - 46.5827| < 0.0005 ∧
    |hadec_to_pa 60 90 51 - 120| < 0.0005 := by
  refine ⟨fun ha dec lat h => ?_, hadec_to_pa_bounds, ?_, ?_⟩
  · rw [hadec_to_pa, if_neg h]
  · have hp := pa_eval_60_30_51
    rw [abs_lt] at hp ⊢
    constructor <;> linarith [hp.1, hp.2]
  · have hp := pa_eval_60_90_51
    rw [abs_lt] at hp ⊢
    constructor <;> linarith [hp.1, hp.2]

/-- Witness for C3 (amended): the formula branch at the concrete nonzero
hour angle `60`. -/
theorem hadec_to_pa_formula_amended_witness :
    hadec_to_pa 60 30 51 = norm180 (atan2deg (sinQ (deg2rad 60))
      (cosQ (deg2rad 30) * tanQ (deg2rad 51) - sinQ (deg2rad 30) * cosQ (deg2rad 60))) :=
  hadec_to_pa_formula_amended.1 60 30 51 (by norm_num)

/-- C4 counterexample: at `HA = 0`, `Dec = 60 > Lat = 51` the parallactic
angle is the wrap-around value `180`, and since `-0 = 0` the claimed
antisymmetry `pa (-HA) = -pa HA` would force `180 = -180`. -/
theorem hadec_to_pa_antisym_counterexample :
    ¬ (hadec_to_pa (-0) 60 51 = -hadec_to_pa 0 60 51) := by
  rw [neg_zero, hadec_to_pa, if_pos rfl, if_pos (by norm_num)]
  norm_num

/-- C4 amended: hour-angle negation negates both outputs away from the
wrap-around configurations: `pa (-HA) = -pa HA` whenever `pa HA ≠ 180`, and
`roll (-HA) = -roll HA` whenever moreover `pa HA ≠ 0` (at those excluded
points the outputs `180` / `-180` are their own negations only modulo
`360`). -/
theorem hadec_to_pa_roll_antisym_amended :
    ∀ ha_deg dec_deg lat_deg : ℚ, -90 ≤ dec_deg → dec_deg ≤ 90 →
      -90 ≤ lat_deg → lat_deg ≤ 90 →
      (hadec_to_pa ha_deg dec_deg lat_deg ≠ 180 →
        hadec_to_pa (-ha_deg) dec_deg lat_deg = -hadec_to_pa ha_deg dec_deg lat_deg) ∧
      (hadec_to_pa ha_deg dec_deg lat_deg ≠ 180 → hadec_to_pa ha_deg dec_deg lat_deg ≠ 0 →
        hadec_to_roll (-ha_deg) dec_deg lat_deg = -hadec_to_roll ha_deg dec_deg lat_deg) :=
  fun ha dec lat _ _ _ _ =>
    ⟨fun h180 => hadec_to_pa_neg ha dec lat h180,
     fun h180 h0 => hadec_to_roll_neg ha dec lat h180 h0⟩

/-- Witness for C4 (amended): both antisymmetries at the concrete triple
`(60, 30, 51)`, where `pa ≈ 46.58` is neither `0` nor `180`. -/
theorem hadec_to_pa_roll_antisym_amended_witness :
    hadec_to_pa (-60) 30 51 = -hadec_to_pa 60 30 51 ∧
    hadec_to_roll (-60) 30 51 = -hadec_to_roll 60 30 51 := by
  have hp := pa_eval_60_30_51
  rw [abs_lt] at hp
  have h180 : hadec_to_pa 60 30 51 ≠ 180 := by
    intro h
    rw [h] at hp
    linarith [hp.1, hp.2]
  have h0 : hadec_to_pa 60 30 51 ≠ 0 := by
    intro h
    rw [h] at hp
    linarith [hp.1, hp.2]
  have := hadec_to_pa_roll_antisym_amended 60 30 51 (by norm_num) (by norm_num)
    (by norm_num) (by norm_num)
  exact ⟨this.1 h180, this.2 h180 h0⟩

/-- C9: at the zenith singularity `HA = 0`, `Dec = Lat` the parallactic-angle
function is total and returns the defined, finite sentinel `180`; no failure
path exists for this input in the model. -/
theorem hadec_to_pa_zenith_sentinel :
    ∀ lat_deg : ℚ, -90 ≤ lat_deg → lat_deg ≤ 90 → hadec_to_pa 0 lat_deg lat_deg = 180 := by
  intro lat _ _
  rw [hadec_to_pa, if_pos rfl, if_pos le_rfl]

/-- Witness for C9: the zenith sentinel at latitude `51`. -/
theorem hadec_to_pa_zenith_sentinel_witness : hadec_to_pa 0 51 51 = 180 :=
  hadec_to_pa_zenith_sentinel 51 (by norm_num) (by norm_num)

theorem wrap24_eq_of (x : ℚ) (k : ℤ) (h1 : 0 ≤ x - 24 * k) (h2 : x - 24 * k < 24) :
    wrap24 x = x - 24 * k := by
  have hk : ⌊x / 24⌋ = k := by
    rw [Int.floor_eq_iff]
    constructor
    · rw [le_div_iff₀ (by norm_num : (0:ℚ) < 24)]
      linarith
    · rw [div_lt_iff₀ (by norm_num : (0:ℚ) < 24)]
      linarith
  rw [wrap24, hk]

theorem wrap24_bounds (x : ℚ) : 0 ≤ wrap24 x ∧ wrap24 x < 24 := by
  have h1 := Int.floor_le (x / 24)
  have h2 := Int.lt_floor_add_one (x / 24)
  rw [le_div_iff₀ (by norm_num : (0:ℚ) < 24)] at h1
  rw [div_lt_iff₀ (by norm_num : (0:ℚ) < 24)] at h2
  rw [wrap24]
  constructor <;> linarith

/-! ## Claim theorems for the observer clock -/

/-- C7: with a configured location `get_lst_hrs` returns the external
provider's raw output wrapped into `[0, 24)`, whatever the raw value's
magnitude or sign. -/
theorem get_lst_hrs_range :
    ∀ (s : Skyfield_utils) (raw_lst_hrs : ℚ), s.location.isSome →
      ∃ lst, s.get_lst_hrs raw_lst_hrs = some lst ∧
        0 ≤ lst ∧ lst < 24 ∧ lst = wrap24 raw_lst_hrs := by
  intro s raw h
  obtain ⟨loc, hloc⟩ := Option.isSome_iff_exists.mp h
  exact ⟨wrap24 raw, by rw [Skyfield_utils.get_lst_hrs, hloc, Option.map_some'],
    (wrap24_bounds raw).1, (wrap24_bounds raw).2, rfl⟩

/-- Witness for C7: a configured clock wraps the raw value `-5` into
`[0, 24)`. -/
theorem get_lst_hrs_range_witness :
    ∃ lst, (Skyfield_utils.new.set_location 35.819676052 (-120.959589646) 0).get_lst_hrs
        (-5) = some lst ∧ 0 ≤ lst ∧ lst < 24 ∧ lst = wrap24 (-5) :=
  get_lst_hrs_range (Skyfield_utils.new.set_location 35.819676052 (-120.959589646) 0)
    (-5) rfl

/-- C6: with a configured location `ra_to_ha` returns the local sidereal
time converted to degrees minus the right ascension, normalized into
`(-180, 180]`, and its output always lies in `(-180, 180]`. -/
theorem ra_to_ha_form_and_range :
    ∀ (s : Skyfield_utils) (raw_lst_hrs ra_deg : ℚ), s.location.isSome →
      ∃ ha, s.ra_to_ha raw_lst_hrs ra_deg = some ha ∧
        ha = norm180 (wrap24 raw_lst_hrs * 15 - ra_deg) ∧ -180 < ha ∧ ha ≤ 180 := by
  intro s raw ra h
  obtain ⟨loc, hloc⟩ := Option.isSome_iff_exists.mp h
  refine ⟨norm180 (wrap24 raw * 15 - ra), ?_, rfl,
    (norm180_bounds _).1, (norm180_bounds _).2⟩
  rw [Skyfield_utils.ra_to_ha, Skyfield_utils.get_lst_hrs, hloc, Option.map_some',
    Option.map_some']

/-- Witness for C6: the configured clock of the logged observation. -/
theorem ra_to_ha_form_and_range_witness :
    ∃ ha, (Skyfield_utils.new.set_location 35.819676052 (-120.959589646) 0).ra_to_ha
        (154.33825506226094 * 12 / 180) 92.37361818 = some ha ∧
      ha = norm180 (wrap24 (154.33825506226094 * 12 / 180) * 15 - 92.37361818) ∧
      -180 < ha ∧ ha ≤ 180 :=
  ra_to_ha_form_and_range
    (Skyfield_utils.new.set_location 35.819676052 (-120.959589646) 0)
    (154.33825506226094 * 12 / 180) 92.37361818 rfl

/-- C8: before any `set_location` both `get_latlon` and `ra_to_ha` fail with
the distinct, recoverable "location unconfigured" condition (`none`) instead
of returning a value; after `set_location` with in-range arguments
`get_latlon` returns exactly the stored pair. -/
theorem location_unconfigured_and_roundtrip :
    Skyfield_utils.new.get_latlon = none ∧
    (∀ raw_lst_hrs ra_deg : ℚ, Skyfield_utils.new.ra_to_ha raw_lst_hrs ra_deg = none) ∧
    (∀ (s : Skyfield_utils) (lat lon altitude : ℚ),
      -90 ≤ lat → lat ≤ 90 → -180 ≤ lon → lon ≤ 180 →
      (s.set_location lat lon altitude).get_latlon = some (lat, lon)) :=
  ⟨rfl, fun _ _ => rfl, fun _ _ _ _ _ _ _ _ => rfl⟩

/-- Witness for C8: the spec's location round-trip scenario. -/
theorem location_unconfigured_and_roundtrip_witness :
    (Skyfield_utils.new.set_location 35.819676052 (-120.959589646) 0).get_latlon
      = some (35.819676052, -120.959589646) :=
  location_unconfigured_and_roundtrip.2.2 Skyfield_utils.new 35.819676052
    (-120.959589646) 0 (by norm_num) (by norm_num) (by norm_num) (by norm_num)

/-- C5: `radec_to_roll` is the pure composition of `ra_to_ha` with
`hadec_to_roll` at the stored latitude — it adds no state of its own — and
at the logged observation (location `(35.819676052, -120.959589646, 0)`,
`ra = 92.37361818`, `dec = 74.05157649`, raw provider sidereal time
`154.33825506226094 * 12 / 180` hours for UTC 2024-05-02T03:39:20) it yields
a roll within `2.1°` of the independently observed `72.03989°`. -/
theorem radec_to_roll_composition_and_value :
    (∀ (s : Skyfield_utils) (raw_lst_hrs ra_deg dec_deg : ℚ),
      s.radec_to_roll raw_lst_hrs ra_deg dec_deg =
        (s.ra_to_ha raw_lst_hrs ra_deg).bind fun ha =>
          s.get_latlon.map fun ll => hadec_to_roll ha dec_deg ll.1) ∧
    (∃ r, (Skyfield_utils.new.set_location 35.819676052 (-120.959589646) 0).radec_to_roll
        (154.33825506226094 * 12 / 180) 92.37361818 74.05157649 = some r ∧
      |r - 72.03989| < 2.1) := by
  constructor
  · intro s raw ra dec
    cases hl : s.location with
    | none =>
      simp [Skyfield_utils.radec_to_roll, Skyfield_utils.ra_to_ha,
        Skyfield_utils.get_lst_hrs, Skyfield_utils.get_latlon, hl]
    | some loc =>
      simp [Skyfield_utils.radec_to_roll, Skyfield_utils.ra_to_ha,
        Skyfield_utils.get_lst_hrs, Skyfield_utils.get_latlon, hl]
  · have hw : wrap24 (154.33825506226094 * 12 / 180) = 154.33825506226094 * 12 / 180 := by
      rw [wrap24_eq_of _ 0 (by push_cast; norm_num) (by push_cast; norm_num)]
      push_cast
      ring
    have e1 : norm180 (wrap24 (154.33825506226094 * 12 / 180) * 15 - 92.37361818)
        = 61.96463688226094 := by
      rw [hw, show (154.33825506226094 * 12 / 180 : ℚ) * 15 - 92.37361818
        = 61.96463688226094 by norm_num]
      exact norm180_self _ (by norm_num) (by norm_num)
    refine ⟨hadec_to_roll 61.96463688226094 74.05157649 35.819676052, ?_, ?_⟩
    · show Skyfield_utils.radec_to_roll _ _ _ _ = _
      rw [Skyfield_utils.radec_to_roll]
      rw [show (Skyfield_utils.new.set_location 35.819676052 (-120.959589646) 0).ra_to_ha
          (154.33825506226094 * 12 / 180) 92.37361818
          = some (norm180 (wrap24 (154.33825506226094 * 12 / 180) * 15 - 92.37361818))
        from rfl, e1]
      rfl
    · have hp := pa_eval_endtoend
      rw [abs_lt] at hp ⊢
      rw [hadec_to_roll, if_neg (by norm_num)]
      rw [norm180_self _ (by linarith [hp.1, hp.2]) (by linarith [hp.1, hp.2])]
      constructor <;> linarith [hp.1, hp.2]

/-- C10: `log_object` never updates `observed_objects_cache`; `check_logged`
lazily populates the cache on first use and returns `True` exactly when the
pair is among the distinct logged pairs held in the cache; hence after the
cache is populated, logging a pair that was not already cached still yields
`False` from a subsequent `check_logged`, until
`load_observed_objects_cache` refreshes the cache. -/
theorem log_object_leaves_cache_stale :
    (∀ (db : ObservationsDatabase) (uid : String) (t : Int) (c : String) (s : Int)
      (sol nts : String),
      ((db.log_object uid t c s sol nts).1).observed_objects_cache
        = db.observed_objects_cache) ∧
    (∀ (db : ObservationsDatabase) (c : String) (s : Int),
      db.observed_objects_cache = none →
      db.check_logged c s
        = (decide ((c, s) ∈ db.get_observed_objects), db.load_observed_objects_cache)) ∧
    (∀ (db : ObservationsDatabase) (cache : List (String × Int)) (c : String) (s : Int),
      db.observed_objects_cache = some cache →
      db.check_logged c s = (decide ((c, s) ∈ cache), db)) ∧
    (∀ (db : ObservationsDatabase) (cache : List (String × Int)) (uid : String) (t : Int)
      (c : String) (s : Int) (sol nts : String),
      db.observed_objects_cache = some cache → (c, s) ∉ cache →
      (((db.log_object uid t c s sol nts).1).check_logged c s).1 = false) ∧
    (∀ (db : ObservationsDatabase) (uid : String) (t : Int) (c : String) (s : Int)
      (sol nts : String),
      ((((db.log_object uid t c s sol nts).1).load_observed_objects_cache).check_logged
        c s).1 = true) := by
  refine ⟨fun db uid t c s sol nts => rfl, fun db c s h => ?_, fun db cache c s h => ?_,
    fun db cache uid t c s sol nts h hmem => ?_, fun db uid t c s sol nts => ?_⟩
  · rw [ObservationsDatabase.check_logged, h]
  · rw [ObservationsDatabase.check_logged, h]
  · rw [ObservationsDatabase.check_logged]
    have hc : ((db.log_object uid t c s sol nts).1).observed_objects_cache = some cache := h
    rw [hc]
    simpa using hmem
  · rw [ObservationsDatabase.check_logged]
    rw [show (((db.log_object uid t c s sol nts).1).load_observed_objects_cache).observed_objects_cache
      = some ((db.log_object uid t c s sol nts).1).get_observed_objects from rfl]
    have : (c, s) ∈ ((db.log_object uid t c s sol nts).1).get_observed_objects := by
      rw [ObservationsDatabase.get_observed_objects, List.mem_dedup]
      refine List.mem_map.mpr ⟨⟨uid, t, c, s, sol, nts⟩, ?_, rfl⟩
      rw [ObservationsDatabase.log_object]
      exact List.mem_append_right _ (List.mem_singleton.mpr rfl)
    simpa using this

/-- Witness for C10: on a database holding one logged pair and a populated
cache, logging a second pair leaves the cache stale — `check_logged` still
answers `false` for the new pair — and answers `true` after the cache is
reloaded. -/
theorem log_object_leaves_cache_stale_witness :
    ((((⟨[⟨"u", 0, "M", 31, "{}", "[]"⟩], some [("M", 31)]⟩ : ObservationsDatabase).log_object
        "u" 1 "NGC" 7000 "{}" "[]").1).check_logged "NGC" 7000).1 = false ∧
    ((((⟨[⟨"u", 0, "M", 31, "{}", "[]"⟩], some [("M", 31)]⟩ : ObservationsDatabase).log_object
        "u" 1 "NGC" 7000 "{}" "[]").1.load_observed_objects_cache).check_logged
        "NGC" 7000).1 = true :=
  ⟨log_object_leaves_cache_stale.2.2.2.1 _ [("M", 31)] "u" 1 "NGC" 7000 "{}" "[]" rfl
      (by simp),
    log_object_leaves_cache_stale.2.2.2.2 _ "u" 1 "NGC" 7000 "{}" "[]"⟩

end PiFinder
